import Mathlib

/-
Verification of the ADA plugin system (server/plugins) against its
natural-language specification.

The embedding below follows server/plugins/__init__.py and the five concrete
plugin modules.  Python dicts are modelled as association lists with
insert-in-place / append-at-end semantics (`dictInsert`, `dictGet`), which
matches CPython's insertion-ordered dictionaries on the states reachable here.
Handler bodies of the concrete plugins (network translation, QR rendering,
model inference, ...) are out of scope per spec section 1 and are abstracted
as parameters; everything surrounding them - the dispatch skeletons, keyword
argument binding, the loader, registry, catalog, dispatch-map and widget
aggregation - is translated directly from the source.
-/

/-- Python values as they occur in the argument mappings and result payloads
exchanged across the plugin boundary. -/
inductive PyVal where
  | str (s : String)
  | int (n : Int)
  | bool (b : Bool)
  | pyNone
deriving DecidableEq, Repr

/-- A keyword-argument mapping (Python kwargs dict). -/
abbrev Args := List (String × PyVal)

/-- A result payload: the dict a plugin function returns. -/
abbrev PyResult := List (String × PyVal)

/-- Python exceptions that can cross a call boundary in the modelled code. -/
inductive PyErr where
  | typeError (msg : String)
deriving DecidableEq, Repr

/-- The structured failure payload used throughout the plugins:
a dict of exactly the form with single key "error". -/
def errorDict (msg : String) : PyResult := [("error", PyVal.str msg)]

/-- One entry of a plugin's get_functions list.  The name and description are
taken verbatim from the source; the JSON parameter schema is not referenced by
any verified property and is not carried. -/
structure FunctionDecl where
  name : String
  description : String
deriving DecidableEq, Repr

/-- The dict returned by a plugin's get_widget_info (component_name, css_file,
socket_events keys, as in the source). -/
structure WidgetInfo where
  component_name : String
  css_file : String
  socket_events : List String
deriving DecidableEq, Repr

/-- The PluginBase contract of server/plugins/init: a loaded capability
instance.  get_name, get_description, get_functions and get_widget_info are
attribute-backed and total in every plugin of the repository; execute_function
may raise, hence the Except codomain. -/
structure Plugin where
  get_name : String
  get_description : String
  get_functions : List FunctionDecl
  execute_function : String → Args → Except PyErr PyResult
  get_widget_info : Option WidgetInfo

/-- The registry self.plugins: a Python dict from plugin name to instance,
modelled as an insertion-ordered association list with unique keys. -/
abbrev Registry := List (String × Plugin)

/-- Python dict assignment d[k] = v: replaces the value in place if the key is
present (keeping its position), otherwise appends the new pair at the end. -/
def dictInsert {β : Type} : List (String × β) → String → β → List (String × β)
  | [], k, v => [(k, v)]
  | kv :: rest, k, v => if kv.1 = k then (k, v) :: rest else kv :: dictInsert rest k v

/-- Python dict lookup d.get(k): the value stored under the first (unique)
occurrence of the key. -/
def dictGet {β : Type} : List (String × β) → String → Option β
  | [], _ => none
  | kv :: rest, k => if kv.1 = k then some kv.2 else dictGet rest k

/-- One value of the dict built by PluginManager.get_function_mapping.  The
source stores a closure whose default arguments freeze the owning plugin and
the function name at construction time
(lambda plugin=plugin, func_name=func_name, ...); the frozen pair is the
entire state of that closure, so the entry is modelled as the pair itself. -/
structure DispatchEntry where
  plugin : Plugin
  func_name : String

/-- Invoking a dispatch-map closure with a kwargs mapping: it forwards the
kwargs unchanged to the bound plugin's execute_function under the bound name
and returns the result as is. -/
def DispatchEntry.call (e : DispatchEntry) (kwargs : Args) : Except PyErr PyResult :=
  e.plugin.execute_function e.func_name kwargs

/-- PluginManager.get_all_functions: starts from an empty list and extends it
with each registered plugin's get_functions, in registry iteration order. -/
def PluginManager.get_all_functions (r : Registry) : List FunctionDecl :=
  r.foldl (fun acc kp => acc ++ kp.2.get_functions) []

/-- PluginManager.get_function_mapping: for each plugin in registry order and
each of its function declarations, assigns the bound (plugin, name) entry to
the dict under that function name, later assignments overwriting earlier
ones. -/
def PluginManager.get_function_mapping (r : Registry) : List (String × DispatchEntry) :=
  r.foldl
    (fun m kp =>
      kp.2.get_functions.foldl
        (fun m fi => dictInsert m fi.name (DispatchEntry.mk kp.2 fi.name)) m)
    []

/-- PluginManager.get_widget_info: for each registered plugin, if its
get_widget_info yields a dict, store it under the plugin's name; plugins
returning None are skipped with no entry. -/
def PluginManager.get_widget_info (r : Registry) : List (String × WidgetInfo) :=
  r.foldl
    (fun d kp =>
      match kp.2.get_widget_info with
      | some w => dictInsert d kp.2.get_name w
      | none => d)
    []

/-- A class found among a candidate module's members.  conforming is the
source's check isclass(obj) and issubclass(obj, PluginBase) and
obj != PluginBase; construct is the result of calling the class: either the
new instance or the message of the exception the constructor raised. -/
structure ClassDef where
  conforming : Bool
  construct : Except String Plugin

/-- One discovered candidate: importlib.import_module either raises (carrying
the error message) or yields a module with named members. -/
inductive ModuleCandidate where
  | importError (e : String)
  | module (members : List (String × ClassDef))

/-- Lexicographic code-point comparison of character lists: the order Python
uses when comparing the member-name strings. -/
def strLeB : List Char → List Char → Bool
  | [], _ => true
  | _ :: _, [] => false
  | a :: as, b :: bs =>
    if a.val < b.val then true
    else if b.val < a.val then false
    else strLeB as bs

/-- Member-name comparison: code-point lexicographic order on the strings. -/
def nameLe (a b : String) : Bool := strLeB a.data b.data

/-- Stable insertion by member name, used to model the sorted order below. -/
def insertByName (x : String × ClassDef) :
    List (String × ClassDef) → List (String × ClassDef)
  | [] => [x]
  | y :: ys => if nameLe x.1 y.1 then x :: y :: ys else y :: insertByName x ys

/-- inspect.getmembers(module): the module's members as (name, value) pairs
sorted by name - the stable, deterministic enumeration order the loader
scans. -/
def getmembers (members : List (String × ClassDef)) : List (String × ClassDef) :=
  members.foldr insertByName []

/-- The member loop of PluginManager.load_plugins (lines 66-74): scan the
enumerated members; skip non-conforming ones; on the first conforming class
call its constructor and stop.  The first component records every class whose
constructor was invoked; the second is the outcome: ok none when no conforming
class exists (the loop just ends, nothing raised and nothing registered),
ok (some p) when the first conforming class constructs p (registered, then
break), error e when that constructor raises (the exception propagates to the
per-candidate handler). -/
def memberLoop : List (String × ClassDef) → List ClassDef × Except String (Option Plugin)
  | [] => ([], Except.ok none)
  | (_, c) :: rest =>
    if c.conforming then
      ([c],
        match c.construct with
        | Except.ok p => Except.ok (some p)
        | Except.error e => Except.error e)
    else memberLoop rest

/-- The outcome of processing one candidate inside the try of load_plugins:
an import error or the member-loop result on the sorted members. -/
def candidateOutcome : ModuleCandidate → Except String (Option Plugin)
  | ModuleCandidate.importError e => Except.error e
  | ModuleCandidate.module members => (memberLoop (getmembers members)).2

/-- What load_plugins prints: a loaded line on success, a failed line (with
the candidate name and the exception text) from the except branch. -/
inductive LoadLog where
  | loaded (name : String)
  | failed (plugin_name : String) (err : String)
deriving DecidableEq, Repr

/-- One iteration of the candidate loop in load_plugins: on success register
the instance under its own get_name and log the load; on an exception log the
failure and leave the registry untouched; a candidate with no conforming
member changes nothing. -/
def loadStep (st : Registry × List LoadLog) (c : String × ModuleCandidate) :
    Registry × List LoadLog :=
  match candidateOutcome c.2 with
  | Except.ok none => st
  | Except.ok (some p) =>
      (dictInsert st.1 p.get_name p, st.2 ++ [LoadLog.loaded p.get_name])
  | Except.error e => (st.1, st.2 ++ [LoadLog.failed c.1 e])

/-- PluginManager.load_plugins over the discovered candidate list, starting
from the empty registry of a fresh manager; returns the registry and the log
lines in order. -/
def PluginManager.load_plugins (candidates : List (String × ModuleCandidate)) :
    Registry × List LoadLog :=
  candidates.foldl loadStep ([], [])

/-- The successfully constructed instances, in candidate order: the plugins
load_plugins registers (possibly overwriting one another on name
collisions). -/
def loadedPlugins (candidates : List (String × ModuleCandidate)) : List Plugin :=
  candidates.filterMap (fun c =>
    match candidateOutcome c.2 with
    | Except.ok (some p) => some p
    | _ => none)

/-- Modelled from the spec: the repository under src/ holds only the plugin
package; the server-side dispatch wrapper of spec sections 4.6 and 6 (the code
that consumes get_function_mapping) is not among the source files.  Per the
spec it looks the name up in the mapping, returns the structured failure
payload "unknown operation: name" without raising when absent, and otherwise
forwards the arguments to the bound entry and returns its result unchanged. -/
def dispatch (r : Registry) (name : String) (arguments : Args) : Except PyErr PyResult :=
  match dictGet (PluginManager.get_function_mapping r) name with
  | none => Except.ok (errorDict ("unknown operation: " ++ name))
  | some e => e.call arguments

/-- The keyword signature of a Python handler method: its required parameters,
its optional (defaulted) parameters, and whether it accepts arbitrary extra
keywords. -/
structure HandlerSig where
  required : List String
  optional : List String
  varkw : Bool

/-- Python keyword-argument binding for a call handler(**kwargs): every
required parameter must be supplied, and unless the handler takes **kwargs,
every supplied keyword must name a declared parameter. -/
def bindsOk (sig : HandlerSig) (kwargs : Args) : Bool :=
  sig.required.all (fun r => kwargs.any (fun kv => kv.1 == r)) &&
  (sig.varkw || kwargs.all (fun kv =>
    sig.required.contains kv.1 || sig.optional.contains kv.1))

/-- A branch of an execute_function body: await self._handler(**kwargs).
Binding the keywords to the handler signature happens before any code of the
handler runs; a mismatch raises TypeError right there, outside every
try/except of the handler.  When binding succeeds the handler body runs; each
handler of the repository then returns a dict (the bodies are abstracted, see
the file comment). -/
def callHandler (sig : HandlerSig) (body : Args → PyResult) (kwargs : Args) :
    Except PyErr PyResult :=
  if bindsOk sig kwargs then Except.ok (body kwargs)
  else Except.error (PyErr.typeError "argument binding failed")

namespace TranslationPlugin

/-- The self.name attribute, returned by get_name. -/
def get_name : String := "translation"

/-- The get_description method of the translation plugin. -/
def get_description : String := "Multi-language translation with 100+ supported languages"

/-- The get_functions declarations of the translation plugin, names and
descriptions verbatim from the source. -/
def get_functions : List FunctionDecl :=
  [⟨"translate_text", "Translate text between supported languages"⟩,
   ⟨"detect_language", "Detect the language of given text"⟩,
   ⟨"get_supported_languages", "Get list of all supported languages"⟩,
   ⟨"translate_batch", "Translate multiple texts to multiple languages"⟩]

/-- The abstracted bodies of the four handler methods; each returns the dict
its try/except (or, for the supported-languages listing, its literal return)
produces. -/
structure Handlers where
  translate_text : Args → PyResult
  detect_language : Args → PyResult
  get_supported_languages : Args → PyResult
  translate_batch : Args → PyResult

/-- Keyword signature of _translate_text(self, text, target_language,
source_language=None). -/
def translate_text_sig : HandlerSig := ⟨["text", "target_language"], ["source_language"], false⟩

/-- Keyword signature of _detect_language(self, text). -/
def detect_language_sig : HandlerSig := ⟨["text"], [], false⟩

/-- Keyword signature of _get_supported_languages(self). -/
def get_supported_languages_sig : HandlerSig := ⟨[], [], false⟩

/-- Keyword signature of _translate_batch(self, texts, target_languages,
source_language=None). -/
def translate_batch_sig : HandlerSig := ⟨["texts", "target_languages"], ["source_language"], false⟩

/-- TranslationPlugin.execute_function: string-match the function name against
the four declared operations, forwarding the kwargs to the matched handler;
any other name falls through to the Unknown function error dict. -/
def execute_function (h : Handlers) (function_name : String) (kwargs : Args) :
    Except PyErr PyResult :=
  if function_name = "translate_text" then
    callHandler translate_text_sig h.translate_text kwargs
  else if function_name = "detect_language" then
    callHandler detect_language_sig h.detect_language kwargs
  else if function_name = "get_supported_languages" then
    callHandler get_supported_languages_sig h.get_supported_languages kwargs
  else if function_name = "translate_batch" then
    callHandler translate_batch_sig h.translate_batch kwargs
  else Except.ok (errorDict ("Unknown function: " ++ function_name))

/-- The get_widget_info dict of the translation plugin. -/
def get_widget_info : Option WidgetInfo :=
  some ⟨"TranslationWidget", "TranslationWidget.css",
        ["translation_update", "language_detection_update"]⟩

end TranslationPlugin

namespace QRCodeGeneratorPlugin

/-- The self.name attribute, returned by get_name. -/
def get_name : String := "qr_code_generator"

/-- The get_description method of the QR code generator plugin. -/
def get_description : String := "QR code generation with custom styling and multiple types"

/-- The get_functions declarations of the QR code generator plugin. -/
def get_functions : List FunctionDecl :=
  [⟨"generate_qr_code", "Generate a QR code with custom styling"⟩,
   ⟨"generate_bulk_qr_codes", "Generate multiple QR codes in batch"⟩,
   ⟨"generate_wifi_qr", "Generate QR code for WiFi network connection"⟩,
   ⟨"generate_vcard_qr", "Generate QR code for contact information (vCard)"⟩,
   ⟨"list_generated_qr_codes", "List all generated QR codes"⟩]

/-- The abstracted bodies of the five handler methods. -/
structure Handlers where
  generate_qr_code : Args → PyResult
  generate_bulk_qr_codes : Args → PyResult
  generate_wifi_qr : Args → PyResult
  generate_vcard_qr : Args → PyResult
  list_generated_qr_codes : Args → PyResult

/-- Keyword signature of _generate_qr_code(self, data, qr_type, size=400,
foreground_color=..., background_color=..., logo_path=None, border=4). -/
def generate_qr_code_sig : HandlerSig :=
  ⟨["data", "qr_type"],
   ["size", "foreground_color", "background_color", "logo_path", "border"], false⟩

/-- Keyword signature of _generate_bulk_qr_codes(self, data_list, qr_type,
size=400, foreground_color=..., background_color=...). -/
def generate_bulk_qr_codes_sig : HandlerSig :=
  ⟨["data_list", "qr_type"], ["size", "foreground_color", "background_color"], false⟩

/-- Keyword signature of _generate_wifi_qr(self, ssid, password="",
encryption="WPA", hidden=False, size=400). -/
def generate_wifi_qr_sig : HandlerSig :=
  ⟨["ssid"], ["password", "encryption", "hidden", "size"], false⟩

/-- Keyword signature of _generate_vcard_qr(self, name, phone="", email="",
company="", title="", website="", address="", size=400). -/
def generate_vcard_qr_sig : HandlerSig :=
  ⟨["name"], ["phone", "email", "company", "title", "website", "address", "size"], false⟩

/-- Keyword signature of _list_generated_qr_codes(self). -/
def list_generated_qr_codes_sig : HandlerSig := ⟨[], [], false⟩

/-- QRCodeGeneratorPlugin.execute_function: match the name against the five
declared operations, else return the Unknown function error dict. -/
def execute_function (h : Handlers) (function_name : String) (kwargs : Args) :
    Except PyErr PyResult :=
  if function_name = "generate_qr_code" then
    callHandler generate_qr_code_sig h.generate_qr_code kwargs
  else if function_name = "generate_bulk_qr_codes" then
    callHandler generate_bulk_qr_codes_sig h.generate_bulk_qr_codes kwargs
  else if function_name = "generate_wifi_qr" then
    callHandler generate_wifi_qr_sig h.generate_wifi_qr kwargs
  else if function_name = "generate_vcard_qr" then
    callHandler generate_vcard_qr_sig h.generate_vcard_qr kwargs
  else if function_name = "list_generated_qr_codes" then
    callHandler list_generated_qr_codes_sig h.list_generated_qr_codes kwargs
  else Except.ok (errorDict ("Unknown function: " ++ function_name))

/-- The get_widget_info dict of the QR code generator plugin. -/
def get_widget_info : Option WidgetInfo :=
  some ⟨"QRCodeGeneratorWidget", "QRCodeGeneratorWidget.css",
        ["qr_code_generated", "bulk_qr_codes_generated"]⟩

end QRCodeGeneratorPlugin

namespace EngineeringCalculatorsPlugin

/-- The self.name attribute, returned by get_name. -/
def get_name : String := "engineering_calculators"

/-- The get_description method of the engineering calculators plugin. -/
def get_description : String := "13 specialized engineering calculation tools"

/-- The get_functions declarations of the engineering calculators plugin. -/
def get_functions : List FunctionDecl :=
  [⟨"electrical_calculator",
    "Electrical engineering calculations (Ohm's Law, Power, Impedance)"⟩,
   ⟨"mechanical_calculator",
    "Mechanical engineering calculations (Stress, Strain, Dynamics)"⟩,
   ⟨"structural_calculator",
    "Structural engineering calculations (Beam analysis, Column buckling)"⟩]

/-- The abstracted bodies of the three handler methods. -/
structure Handlers where
  electrical_calculator : Args → PyResult
  mechanical_calculator : Args → PyResult
  structural_calculator : Args → PyResult

/-- Keyword signature of _electrical_calculator(self, calculation_type,
**kwargs). -/
def electrical_calculator_sig : HandlerSig := ⟨["calculation_type"], [], true⟩

/-- Keyword signature of _mechanical_calculator(self, calculation_type,
**kwargs). -/
def mechanical_calculator_sig : HandlerSig := ⟨["calculation_type"], [], true⟩

/-- Keyword signature of _structural_calculator(self, calculation_type,
**kwargs). -/
def structural_calculator_sig : HandlerSig := ⟨["calculation_type"], [], true⟩

/-- EngineeringCalculatorsPlugin.execute_function: match the name against the
three declared operations, else return the Unknown function error dict. -/
def execute_function (h : Handlers) (function_name : String) (kwargs : Args) :
    Except PyErr PyResult :=
  if function_name = "electrical_calculator" then
    callHandler electrical_calculator_sig h.electrical_calculator kwargs
  else if function_name = "mechanical_calculator" then
    callHandler mechanical_calculator_sig h.mechanical_calculator kwargs
  else if function_name = "structural_calculator" then
    callHandler structural_calculator_sig h.structural_calculator kwargs
  else Except.ok (errorDict ("Unknown function: " ++ function_name))

/-- The get_widget_info dict of the engineering calculators plugin. -/
def get_widget_info : Option WidgetInfo :=
  some ⟨"EngineeringCalculatorsWidget", "EngineeringCalculatorsWidget.css",
        ["engineering_calculation_result"]⟩

end EngineeringCalculatorsPlugin

namespace DocumentAnalysisPlugin

/-- The self.name attribute, returned by get_name. -/
def get_name : String := "document_analysis"

/-- The get_description method of the document analysis plugin. -/
def get_description : String := "Document analysis and processing with multi-format support"

/-- The get_functions declarations of the document analysis plugin. -/
def get_functions : List FunctionDecl :=
  [⟨"analyze_document",
    "Analyze and extract content from uploaded documents (PDF, DOCX, TXT, MD, RTF, CSV, XLSX, PPTX, PNG, JPG)"⟩,
   ⟨"list_documents", "List all uploaded and processed documents"⟩,
   ⟨"delete_document", "Delete a document from storage"⟩]

/-- The abstracted bodies of the three handler methods. -/
structure Handlers where
  analyze_document : Args → PyResult
  list_documents : Args → PyResult
  delete_document : Args → PyResult

/-- Keyword signature of _analyze_document(self, file_data, filename,
analysis_type, question=None). -/
def analyze_document_sig : HandlerSig :=
  ⟨["file_data", "filename", "analysis_type"], ["question"], false⟩

/-- Keyword signature of _list_documents(self). -/
def list_documents_sig : HandlerSig := ⟨[], [], false⟩

/-- Keyword signature of _delete_document(self, document_id). -/
def delete_document_sig : HandlerSig := ⟨["document_id"], [], false⟩

/-- DocumentAnalysisPlugin.execute_function: match the name against the three
declared operations, else return the Unknown function error dict. -/
def execute_function (h : Handlers) (function_name : String) (kwargs : Args) :
    Except PyErr PyResult :=
  if function_name = "analyze_document" then
    callHandler analyze_document_sig h.analyze_document kwargs
  else if function_name = "list_documents" then
    callHandler list_documents_sig h.list_documents kwargs
  else if function_name = "delete_document" then
    callHandler delete_document_sig h.delete_document kwargs
  else Except.ok (errorDict ("Unknown function: " ++ function_name))

/-- The get_widget_info dict of the document analysis plugin. -/
def get_widget_info : Option WidgetInfo :=
  some ⟨"DocumentAnalysisWidget", "DocumentAnalysisWidget.css",
        ["document_analysis_update", "document_list_update"]⟩

end DocumentAnalysisPlugin

namespace ImageGenerationPlugin

/-- The self.name attribute, returned by get_name. -/
def get_name : String := "image_generation"

/-- The get_description method of the image generation plugin. -/
def get_description : String := "AI image generation using Stable Diffusion XL"

/-- The get_functions declarations of the image generation plugin. -/
def get_functions : List FunctionDecl :=
  [⟨"generate_image",
    "Generate an image using Stable Diffusion XL based on a text prompt"⟩,
   ⟨"list_generated_images", "List all previously generated images"⟩,
   ⟨"delete_generated_image", "Delete a generated image"⟩]

/-- The abstracted bodies of the three handler methods. -/
structure Handlers where
  generate_image : Args → PyResult
  list_generated_images : Args → PyResult
  delete_generated_image : Args → PyResult

/-- Keyword signature of _generate_image(self, prompt, negative_prompt="",
width=1024, height=1024, num_inference_steps=20, guidance_scale=7.5). -/
def generate_image_sig : HandlerSig :=
  ⟨["prompt"],
   ["negative_prompt", "width", "height", "num_inference_steps", "guidance_scale"], false⟩

/-- Keyword signature of _list_generated_images(self). -/
def list_generated_images_sig : HandlerSig := ⟨[], [], false⟩

/-- Keyword signature of _delete_generated_image(self, image_id). -/
def delete_generated_image_sig : HandlerSig := ⟨["image_id"], [], false⟩

/-- ImageGenerationPlugin.execute_function: match the name against the three
declared operations, else return the Unknown function error dict. -/
def execute_function (h : Handlers) (function_name : String) (kwargs : Args) :
    Except PyErr PyResult :=
  if function_name = "generate_image" then
    callHandler generate_image_sig h.generate_image kwargs
  else if function_name = "list_generated_images" then
    callHandler list_generated_images_sig h.list_generated_images kwargs
  else if function_name = "delete_generated_image" then
    callHandler delete_generated_image_sig h.delete_generated_image kwargs
  else Except.ok (errorDict ("Unknown function: " ++ function_name))

/-- The get_widget_info dict of the image generation plugin. -/
def get_widget_info : Option WidgetInfo :=
  some ⟨"ImageGenerationWidget", "ImageGenerationWidget.css",
        ["image_generation_update", "image_list_update"]⟩

end ImageGenerationPlugin

/-- A synthetic capability used in concrete test scenarios: declares one
operation foo and no widget. -/
def pluginA : Plugin :=
  ⟨"alpha", "first capability", [⟨"foo", "alpha version of foo"⟩],
   fun _ _ => Except.ok [], none⟩

/-- A synthetic capability declaring bar and its own foo, with a widget. -/
def pluginB : Plugin :=
  ⟨"beta", "second capability", [⟨"bar", "beta bar"⟩, ⟨"foo", "beta version of foo"⟩],
   fun _ _ => Except.ok [], some ⟨"BetaWidget", "BetaWidget.css", ["beta_event"]⟩⟩

/-- A synthetic capability with no operations and no widget. -/
def pluginC : Plugin :=
  ⟨"gamma", "third capability", [], fun _ _ => Except.ok [], none⟩

/-- The earlier of two capabilities sharing the identity dup. -/
def plugDup1 : Plugin :=
  ⟨"dup", "earlier duplicate", [], fun _ _ => Except.ok [], none⟩

/-- The later of two capabilities sharing the identity dup. -/
def plugDup2 : Plugin :=
  ⟨"dup", "later duplicate", [], fun _ _ => Except.ok [], none⟩

/-- A registry holding pluginA then pluginB, as load would key them. -/
def regAB : Registry := [("alpha", pluginA), ("beta", pluginB)]

/-- A registry of three capabilities of which only pluginB has widget info. -/
def regABC : Registry := [("alpha", pluginA), ("beta", pluginB), ("gamma", pluginC)]

/-- Three candidates: two load capabilities that share the name dup, and the
middle module contains no conforming class. -/
def csDup : List (String × ModuleCandidate) :=
  [("a", ModuleCandidate.module [("A", ⟨true, Except.ok plugDup1⟩)]),
   ("b", ModuleCandidate.module [("B", ⟨false, Except.ok pluginC⟩)]),
   ("c", ModuleCandidate.module [("C", ⟨true, Except.ok plugDup2⟩)])]

/-- Three candidates with distinct identities: one import failure between two
loadable modules. -/
def csOk : List (String × ModuleCandidate) :=
  [("a", ModuleCandidate.module [("A", ⟨true, Except.ok pluginA⟩)]),
   ("b", ModuleCandidate.importError "boom"),
   ("c", ModuleCandidate.module [("C", ⟨true, Except.ok pluginB⟩)])]

/-- A module whose two conforming classes come with a first constructor that
raises. -/
def membersRaise : List (String × ClassDef) :=
  [("A", ⟨true, Except.error "boom"⟩), ("B", ⟨true, Except.ok pluginA⟩)]

/-- A module with two conforming classes whose constructors both succeed. -/
def membersTwo : List (String × ClassDef) :=
  [("A", ⟨true, Except.ok pluginA⟩), ("B", ⟨true, Except.ok pluginB⟩)]

theorem dictGet_dictInsert {β : Type} (d : List (String × β)) (k n : String) (v : β) :
    dictGet (dictInsert d k v) n = if n = k then some v else dictGet d n := by
  induction d with
  | nil =>
      by_cases hn : n = k
      · subst hn; simp [dictInsert, dictGet]
      · simp [dictInsert, dictGet, hn, Ne.symm hn]
  | cons kv rest ih =>
      by_cases hk : kv.1 = k
      · by_cases hn : n = k
        · subst hn; simp [dictInsert, dictGet, hk]
        · have hk' : ¬ kv.1 = n := fun hh => (Ne.symm hn) (hk.symm.trans hh)
          simp [dictInsert, dictGet, hk, hn, Ne.symm hn, hk']
      · by_cases hn : n = k
        · subst hn
          simp [dictInsert, dictGet, hk, ih, fun hh : kv.1 = n => hk hh]
        · simp [dictInsert, dictGet, hk, hn, ih]

theorem dictInsert_eq_append {β : Type} {d : List (String × β)} {k : String} (v : β)
    (h : k ∉ d.map Prod.fst) : dictInsert d k v = d ++ [(k, v)] := by
  induction d with
  | nil => simp [dictInsert]
  | cons a rest ih =>
      simp only [List.map_cons, List.mem_cons] at h
      push_neg at h
      have hne : ¬ a.1 = k := fun hh => h.1 hh.symm
      simp [dictInsert, hne, ih h.2]

theorem foldl_extend_eq {α β : Type} (f : α → List β) (l : List α) (acc : List β) :
    l.foldl (fun a x => a ++ f x) acc = acc ++ (l.map f).flatten := by
  induction l generalizing acc with
  | nil => simp
  | cons x t ih => simp [ih, List.append_assoc]

theorem registry_dictGet_foldInsert (ps : List Plugin) (d : Registry) (n : String) :
    dictGet (ps.foldl (fun d p => dictInsert d p.get_name p) d) n =
      ((ps.filter fun p => p.get_name == n).getLast?).or (dictGet d n) := by
  induction ps generalizing d with
  | nil => simp
  | cons p t ih =>
      rw [List.foldl_cons, List.filter_cons, ih]
      by_cases hp : p.get_name = n
      · simp only [hp, beq_self_eq_true, if_true]
        cases hlast : (t.filter fun q => q.get_name == n).getLast? with
        | none =>
            rw [List.getLast?_eq_none_iff.mp hlast]
            simp [dictGet_dictInsert, hp]
        | some q =>
            rcases List.getLast?_eq_some_iff.mp hlast with ⟨ys, hys⟩
            rw [hys, show p :: (ys ++ [q]) = (p :: ys) ++ [q] from rfl,
               List.getLast?_concat]
            simp
      · have hbeq : (p.get_name == n) = false := beq_eq_false_iff_ne.mpr hp
        rw [hbeq]
        simp only [Bool.false_eq_true, if_false]
        rw [dictGet_dictInsert, if_neg (fun hh => hp hh.symm)]

theorem load_registry_eq (cs : List (String × ModuleCandidate)) (st : Registry × List LoadLog) :
    (cs.foldl loadStep st).1 =
      (loadedPlugins cs).foldl (fun d p => dictInsert d p.get_name p) st.1 := by
  induction cs generalizing st with
  | nil => simp [loadedPlugins]
  | cons c t ih =>
      cases ho : candidateOutcome c.2 with
      | ok op =>
          cases op with
          | none =>
              simp [List.foldl_cons, loadStep, ho, ih, loadedPlugins, List.filterMap_cons]
          | some p =>
              simp [List.foldl_cons, loadStep, ho, ih, loadedPlugins, List.filterMap_cons]
      | error e =>
          simp [List.foldl_cons, loadStep, ho, ih, loadedPlugins, List.filterMap_cons]

theorem load_log_mono (cs : List (String × ModuleCandidate)) (st : Registry × List LoadLog)
    {x : LoadLog} (h : x ∈ st.2) : x ∈ (cs.foldl loadStep st).2 := by
  induction cs generalizing st with
  | nil => exact h
  | cons c t ih =>
      rw [List.foldl_cons]
      apply ih
      cases ho : candidateOutcome c.2 with
      | ok op => cases op <;> simp [loadStep, ho, h]
      | error e => simp [loadStep, ho, h]

theorem load_log_failed (cs : List (String × ModuleCandidate)) (st : Registry × List LoadLog)
    {c : String × ModuleCandidate} {e : String}
    (he : candidateOutcome c.2 = Except.error e) :
    c ∈ cs → LoadLog.failed c.1 e ∈ (cs.foldl loadStep st).2 := by
  induction cs generalizing st with
  | nil => intro hc; cases hc
  | cons a t ih =>
      intro hc
      rw [List.foldl_cons]
      rcases List.mem_cons.mp hc with rfl | hmem
      · exact load_log_mono t (loadStep st c) (by simp [loadStep, he])
      · exact ih (loadStep st a) hmem

theorem foldInsert_nodup : ∀ (ps : List Plugin) (d : Registry),
    (∀ p ∈ ps, p.get_name ∉ d.map Prod.fst) →
    (ps.map Plugin.get_name).Nodup →
    ps.foldl (fun d p => dictInsert d p.get_name p) d
      = d ++ ps.map (fun p => (p.get_name, p))
  | [], d, _, _ => by simp
  | p :: t, d, hd, hn => by
      rw [List.foldl_cons, dictInsert_eq_append p (hd p (List.mem_cons_self p t))]
      have hd' : ∀ q ∈ t, q.get_name ∉ (d ++ [(p.get_name, p)]).map Prod.fst := by
        intro q hq
        rw [List.map_append]
        rintro hmem
        rcases List.mem_append.mp hmem with h | h
        · exact hd q (List.mem_cons_of_mem _ hq) h
        · simp only [List.map_cons, List.map_nil, List.mem_singleton] at h
          exact (List.nodup_cons.mp hn).1 (h ▸ List.mem_map_of_mem Plugin.get_name hq)
      rw [foldInsert_nodup t (d ++ [(p.get_name, p)]) hd' (List.nodup_cons.mp hn).2]
      simp

theorem widgets_fold_eq : ∀ (r : Registry) (d : List (String × WidgetInfo)),
    (∀ kp ∈ r, kp.2.get_name ∉ d.map Prod.fst) →
    (r.map fun kp => kp.2.get_name).Nodup →
    r.foldl (fun d kp =>
        match kp.2.get_widget_info with
        | some w => dictInsert d kp.2.get_name w
        | none => d) d
      = d ++ r.filterMap (fun kp => (kp.2.get_widget_info).map fun w => (kp.2.get_name, w))
  | [], d, _, _ => by simp
  | kp :: t, d, hd, hn => by
      cases hw : kp.2.get_widget_info with
      | none =>
          rw [List.foldl_cons]
          simp only [hw]
          rw [widgets_fold_eq t d (fun q hq => hd q (List.mem_cons_of_mem _ hq))
              (List.nodup_cons.mp hn).2]
          simp [List.filterMap_cons, hw]
      | some w =>
          rw [List.foldl_cons]
          simp only [hw]
          rw [dictInsert_eq_append w (hd kp (List.mem_cons_self kp t))]
          have hd' : ∀ q ∈ t, q.2.get_name ∉ (d ++ [(kp.2.get_name, w)]).map Prod.fst := by
            intro q hq
            rw [List.map_append]
            rintro hmem
            rcases List.mem_append.mp hmem with h | h
            · exact hd q (List.mem_cons_of_mem _ hq) h
            · simp only [List.map_cons, List.map_nil, List.mem_singleton] at h
              exact (List.nodup_cons.mp hn).1
                (by simpa [h] using
                  List.mem_map_of_mem (fun kp : String × Plugin => kp.2.get_name) hq)
          rw [widgets_fold_eq t (d ++ [(kp.2.get_name, w)]) hd' (List.nodup_cons.mp hn).2]
          simp [List.filterMap_cons, hw]

theorem memberLoop_first : ∀ (l : List (String × ClassDef)) (c : ClassDef) (rest : List ClassDef),
    (l.map Prod.snd).filter (fun d => d.conforming) = c :: rest →
    memberLoop l = ([c],
      match c.construct with
      | Except.ok p => Except.ok (some p)
      | Except.error e => Except.error e)
  | [], c, rest, h => by simp at h
  | (nm, a) :: t, c, rest, h => by
      by_cases ha : a.conforming
      · rw [List.map_cons, List.filter_cons] at h
        simp only [ha, if_true] at h
        obtain ⟨rfl, -⟩ := List.cons.injEq .. ▸ h
        simp [memberLoop, ha]
      · rw [List.map_cons, List.filter_cons] at h
        simp only [ha, Bool.false_eq_true, if_false] at h
        rw [show memberLoop ((nm, a) :: t) = memberLoop t by simp [memberLoop, ha]]
        exact memberLoop_first t c rest h

/-- C1: for every operation name absent from the dispatch mapping, dispatch of
that name with any arguments returns the structured failure dict with message
unknown operation followed by the name, and does not raise (the outcome is an
ok payload, not an exception). -/
theorem C1_dispatch_unknown_operation (r : Registry) (name : String) (arguments : Args)
    (h : dictGet (PluginManager.get_function_mapping r) name = none) :
    dispatch r name arguments = Except.ok (errorDict ("unknown operation: " ++ name)) := by
  unfold dispatch
  rw [h]

/-- Witness for C1 on the empty registry and the name nonexistent_op. -/
theorem C1_dispatch_unknown_operation_witness :
    dispatch [] "nonexistent_op" [] =
      Except.ok (errorDict ("unknown operation: " ++ "nonexistent_op")) :=
  C1_dispatch_unknown_operation [] "nonexistent_op" [] rfl

/-- C2 counterexample: with pluginA and pluginB both declaring an operation
named foo, the merged catalog built by get_all_functions contains two entries
with that name - the earlier capability's first - and not exactly one entry
equal to the later declaration. -/
theorem C2_catalog_duplicate_counterexample :
    (PluginManager.get_all_functions regAB).filter (fun fd => fd.name == "foo")
      = [⟨"foo", "alpha version of foo"⟩, ⟨"foo", "beta version of foo"⟩] ∧
    ((PluginManager.get_all_functions regAB).filter (fun fd => fd.name == "foo")).length ≠ 1 :=
  ⟨by decide, by decide⟩

/-- C2 amended: the merged catalog performs no deduplication; for every name,
its catalog entries are exactly the concatenation, in registry iteration
order, of each capability's own declarations of that name. -/
theorem C2_catalog_concatenates_declarations (r : Registry) (n : String) :
    (PluginManager.get_all_functions r).filter (fun fd => fd.name == n)
      = (r.map (fun kp => kp.2.get_functions.filter (fun fd => fd.name == n))).flatten := by
  unfold PluginManager.get_all_functions
  rw [foldl_extend_eq (fun kp => kp.2.get_functions) r [], List.nil_append,
    List.filter_flatten, List.map_map]
  rfl

/-- C5 counterexample: three candidates of which two load capabilities that
share one identity and the middle one holds no conforming class.  So N equals
2 and M equals 1, yet the registry afterwards holds a single entry rather than
the two successful capabilities, and the log shows two loaded lines and no
failure line naming the excluded candidate or its cause. -/
theorem C5_load_counterexample :
    (loadedPlugins csDup).length = 2 ∧
    (PluginManager.load_plugins csDup).1.length = 1 ∧
    (PluginManager.load_plugins csDup).2 = [LoadLog.loaded "dup", LoadLog.loaded "dup"] :=
  ⟨rfl, rfl, rfl⟩

/-- C5 amended: every candidate whose processing raises (import error or
constructor exception) is caught and logged with its identifier and cause
while loading continues; candidates with no conforming class are silently
skipped without a log line; and when the successfully constructed capabilities
have pairwise distinct identities the registry afterwards holds exactly those
capabilities, keyed by their names in load order. -/
theorem C5_load_isolates_failures (cs : List (String × ModuleCandidate))
    (hnodup : ((loadedPlugins cs).map Plugin.get_name).Nodup) :
    (PluginManager.load_plugins cs).1
        = (loadedPlugins cs).map (fun p => (p.get_name, p)) ∧
    ∀ c ∈ cs, ∀ e, candidateOutcome c.2 = Except.error e →
      LoadLog.failed c.1 e ∈ (PluginManager.load_plugins cs).2 := by
  constructor
  · rw [PluginManager.load_plugins, load_registry_eq]
    simpa using foldInsert_nodup (loadedPlugins cs) [] (by simp) hnodup
  · intro c hc e he
    exact load_log_failed cs ([], []) he hc

/-- Witness for C5: one import failure between two loadable candidates; the
registry holds exactly the two loaded capabilities and the failure is logged
with its identifier and cause. -/
theorem C5_load_isolates_failures_witness :
    (PluginManager.load_plugins csOk).1 = [("alpha", pluginA), ("beta", pluginB)] ∧
    LoadLog.failed "b" "boom" ∈ (PluginManager.load_plugins csOk).2 := by
  have h := C5_load_isolates_failures csOk (by decide)
  refine ⟨by rw [h.1]; rfl, ?_⟩
  exact h.2 ("b", ModuleCandidate.importError "boom") (by simp [csOk]) "boom" rfl

/-- C9: after any load the registry satisfies the key invariant: whatever
instance is stored under a key reports that key as its get_name. -/
theorem C9_registry_key_invariant (cs : List (String × ModuleCandidate))
    (k : String) (p : Plugin)
    (h : dictGet (PluginManager.load_plugins cs).1 k = some p) :
    p.get_name = k := by
  rw [PluginManager.load_plugins, load_registry_eq, registry_dictGet_foldInsert] at h
  rw [show dictGet (([], []) : Registry × List LoadLog).1 k = none from rfl,
    Option.or_none] at h
  rcases List.getLast?_eq_some_iff.mp h with ⟨ys, hys⟩
  have hmem : p ∈ (loadedPlugins cs).filter (fun q => q.get_name == k) := by
    rw [hys]; simp
  simpa using (List.mem_filter.mp hmem).2

/-- Witness for C9 on the three-candidate load csOk at key alpha. -/
theorem C9_registry_key_invariant_witness : pluginA.get_name = "alpha" :=
  C9_registry_key_invariant csOk "alpha" pluginA rfl

/-- C6: when two successfully constructed capabilities report the same
identity and the later is the last success with that identity, the registry
get for it returns the later instance, and when the two instances differ the
earlier one is reachable under no key at all. -/
theorem C6_duplicate_identity_last_write_wins
    (cs : List (String × ModuleCandidate)) (n : String) (p1 p2 : Plugin)
    (l1 l2 l3 : List Plugin)
    (hload : loadedPlugins cs = l1 ++ p1 :: l2 ++ p2 :: l3)
    (h1 : p1.get_name = n) (h2 : p2.get_name = n)
    (h3 : ∀ q ∈ l3, q.get_name ≠ n) (hne : p1 ≠ p2) :
    dictGet (PluginManager.load_plugins cs).1 n = some p2 ∧
    ∀ k, dictGet (PluginManager.load_plugins cs).1 k ≠ some p1 := by
  have hreg : ∀ k, dictGet (PluginManager.load_plugins cs).1 k =
      ((loadedPlugins cs).filter (fun q => q.get_name == k)).getLast? := by
    intro k
    rw [PluginManager.load_plugins, load_registry_eq, registry_dictGet_foldInsert]
    rw [show dictGet ((([], []) : Registry × List LoadLog)).1 k = none from rfl,
      Option.or_none]
  have hf3 : l3.filter (fun q => q.get_name == n) = [] :=
    List.filter_eq_nil_iff.mpr (fun q hq => by simp [h3 q hq])
  have hgetn : ((loadedPlugins cs).filter (fun q => q.get_name == n)).getLast? = some p2 := by
    rw [List.getLast?_eq_some_iff]
    refine ⟨l1.filter (fun q => q.get_name == n) ++ p1 :: l2.filter (fun q => q.get_name == n), ?_⟩
    rw [hload]
    simp [List.filter_append, List.filter_cons, h1, h2, hf3]
  refine ⟨by rw [hreg n]; exact hgetn, ?_⟩
  intro k hk
  rw [hreg k] at hk
  rcases List.getLast?_eq_some_iff.mp hk with ⟨ys, hys⟩
  have hmem : p1 ∈ (loadedPlugins cs).filter (fun q => q.get_name == k) := by
    rw [hys]; simp
  have hk1 : p1.get_name = k := by simpa using (List.mem_filter.mp hmem).2
  have hkn : k = n := by rw [← hk1, h1]
  subst hkn
  rw [hgetn] at hk
  exact hne (Option.some.injEq .. ▸ hk).symm

/-- Witness for C6: loading csDup registers plugDup1 then plugDup2 under the
shared identity dup; get returns the later instance and the earlier one is
not reachable under the key dup. -/
theorem C6_duplicate_identity_last_write_wins_witness :
    dictGet (PluginManager.load_plugins csDup).1 "dup" = some plugDup2 ∧
    dictGet (PluginManager.load_plugins csDup).1 "dup" ≠ some plugDup1 := by
  have h := C6_duplicate_identity_last_write_wins csDup "dup" plugDup1 plugDup2 [] [] []
    rfl rfl rfl (by simp)
    (fun he => absurd (congrArg Plugin.get_description he) (by decide))
  exact ⟨h.1, h.2 "dup"⟩

/-- C7 counterexample: a candidate unit whose two conforming classes begin
with one whose constructor raises.  Only that first class is instantiated
(one constructor call) and it fails, so the unit yields an exception and no
instance at all - not exactly one instance. -/
theorem C7_first_conforming_counterexample :
    (((getmembers membersRaise).map Prod.snd).filter (fun d => d.conforming)).length = 2 ∧
    (memberLoop (getmembers membersRaise)).1.length = 1 ∧
    (memberLoop (getmembers membersRaise)).2 = Except.error "boom" :=
  ⟨rfl, rfl, rfl⟩

/-- C7 amended: in a candidate unit with at least one conforming type the
loader calls exactly one constructor, that of the first conforming type in
the sorted member enumeration; later conforming types are silently ignored in
every case, and the candidate's outcome is that single construction's result
(registered instance or propagated constructor exception). -/
theorem C7_first_conforming_only (members : List (String × ClassDef))
    (c : ClassDef) (rest : List ClassDef)
    (h : ((getmembers members).map Prod.snd).filter (fun d => d.conforming) = c :: rest) :
    (memberLoop (getmembers members)).1 = [c] ∧
    (memberLoop (getmembers members)).2 =
      (match c.construct with
       | Except.ok p => Except.ok (some p)
       | Except.error e => Except.error e) := by
  rw [memberLoop_first (getmembers members) c rest h]
  exact ⟨rfl, rfl⟩

/-- Witness for C7 on a unit with two conforming constructible classes: only
the first is instantiated and its instance is the outcome. -/
theorem C7_first_conforming_only_witness :
    (memberLoop (getmembers membersTwo)).1 = [ClassDef.mk true (Except.ok pluginA)] ∧
    (memberLoop (getmembers membersTwo)).2 = Except.ok (some pluginA) := by
  have h := C7_first_conforming_only membersTwo (ClassDef.mk true (Except.ok pluginA))
    [ClassDef.mk true (Except.ok pluginB)] rfl
  exact ⟨h.1, h.2⟩

/-- C8: for a registry with pairwise distinct capability identities the widget
aggregation returns exactly the pairs of identity and descriptor of those
capabilities whose get_widget_info yields a descriptor, in registry order,
with capabilities returning none omitted without a placeholder. -/
theorem C8_widget_aggregation (r : Registry)
    (hnodup : (r.map fun kp => kp.2.get_name).Nodup) :
    PluginManager.get_widget_info r
      = r.filterMap (fun kp => (kp.2.get_widget_info).map fun w => (kp.2.get_name, w)) := by
  unfold PluginManager.get_widget_info
  simpa using widgets_fold_eq r [] (by simp) hnodup

/-- Witness for C8: of the three capabilities in regABC only pluginB defines
widget info, and the aggregation has exactly that one entry. -/
theorem C8_widget_aggregation_witness :
    PluginManager.get_widget_info regABC
      = [("beta", WidgetInfo.mk "BetaWidget" "BetaWidget.css" ["beta_event"])] ∧
    (PluginManager.get_widget_info regABC).length = 1 := by
  have h := C8_widget_aggregation regABC (by decide)
  exact ⟨by rw [h]; rfl, by rw [h]; rfl⟩

/-- C3 (code defect): execute_function forwards its kwargs to the selected
handler with no try/except around the call itself; keyword binding happens
before any handler code runs, so an argument mapping that does not fit the
handler signature raises TypeError across the contract boundary instead of
producing a payload or an error dict.  Here: any keyword passed to
get_supported_languages, which declares no parameters. -/
theorem C3_invoke_raises_on_bad_binding :
    TranslationPlugin.execute_function
        ⟨fun _ => [], fun _ => [], fun _ => [], fun _ => []⟩
        "get_supported_languages" [("x", PyVal.int 1)]
      = Except.error (PyErr.typeError "argument binding failed") := rfl

/-- C10: each of the five concrete plugins, taken on its own, answers any
operation name not among its own declared functions (with no extra keywords)
with exactly the error dict Unknown function followed by the name, without
raising; and this wording differs from the dispatcher-level unknown operation
failure promised by the spec. -/
theorem C10_unknown_function_message (fn : String)
    (ht : TranslationPlugin.Handlers) (hq : QRCodeGeneratorPlugin.Handlers)
    (he : EngineeringCalculatorsPlugin.Handlers) (hd : DocumentAnalysisPlugin.Handlers)
    (hi : ImageGenerationPlugin.Handlers) :
    (fn ∉ TranslationPlugin.get_functions.map FunctionDecl.name →
      TranslationPlugin.execute_function ht fn []
        = Except.ok (errorDict ("Unknown function: " ++ fn))) ∧
    (fn ∉ QRCodeGeneratorPlugin.get_functions.map FunctionDecl.name →
      QRCodeGeneratorPlugin.execute_function hq fn []
        = Except.ok (errorDict ("Unknown function: " ++ fn))) ∧
    (fn ∉ EngineeringCalculatorsPlugin.get_functions.map FunctionDecl.name →
      EngineeringCalculatorsPlugin.execute_function he fn []
        = Except.ok (errorDict ("Unknown function: " ++ fn))) ∧
    (fn ∉ DocumentAnalysisPlugin.get_functions.map FunctionDecl.name →
      DocumentAnalysisPlugin.execute_function hd fn []
        = Except.ok (errorDict ("Unknown function: " ++ fn))) ∧
    (fn ∉ ImageGenerationPlugin.get_functions.map FunctionDecl.name →
      ImageGenerationPlugin.execute_function hi fn []
        = Except.ok (errorDict ("Unknown function: " ++ fn))) ∧
    ("Unknown function: " ++ fn) ≠ ("unknown operation: " ++ fn) := by
  refine ⟨?_, ?_, ?_, ?_, ?_, ?_⟩
  · intro h1
    have t1 : fn ≠ "translate_text" := fun hh => h1 (by rw [hh]; decide)
    have t2 : fn ≠ "detect_language" := fun hh => h1 (by rw [hh]; decide)
    have t3 : fn ≠ "get_supported_languages" := fun hh => h1 (by rw [hh]; decide)
    have t4 : fn ≠ "translate_batch" := fun hh => h1 (by rw [hh]; decide)
    simp [TranslationPlugin.execute_function, t1, t2, t3, t4]
  · intro h2
    have q1 : fn ≠ "generate_qr_code" := fun hh => h2 (by rw [hh]; decide)
    have q2 : fn ≠ "generate_bulk_qr_codes" := fun hh => h2 (by rw [hh]; decide)
    have q3 : fn ≠ "generate_wifi_qr" := fun hh => h2 (by rw [hh]; decide)
    have q4 : fn ≠ "generate_vcard_qr" := fun hh => h2 (by rw [hh]; decide)
    have q5 : fn ≠ "list_generated_qr_codes" := fun hh => h2 (by rw [hh]; decide)
    simp [QRCodeGeneratorPlugin.execute_function, q1, q2, q3, q4, q5]
  · intro h3
    have e1 : fn ≠ "electrical_calculator" := fun hh => h3 (by rw [hh]; decide)
    have e2 : fn ≠ "mechanical_calculator" := fun hh => h3 (by rw [hh]; decide)
    have e3 : fn ≠ "structural_calculator" := fun hh => h3 (by rw [hh]; decide)
    simp [EngineeringCalculatorsPlugin.execute_function, e1, e2, e3]
  · intro h4
    have d1 : fn ≠ "analyze_document" := fun hh => h4 (by rw [hh]; decide)
    have d2 : fn ≠ "list_documents" := fun hh => h4 (by rw [hh]; decide)
    have d3 : fn ≠ "delete_document" := fun hh => h4 (by rw [hh]; decide)
    simp [DocumentAnalysisPlugin.execute_function, d1, d2, d3]
  · intro h5
    have i1 : fn ≠ "generate_image" := fun hh => h5 (by rw [hh]; decide)
    have i2 : fn ≠ "list_generated_images" := fun hh => h5 (by rw [hh]; decide)
    have i3 : fn ≠ "delete_generated_image" := fun hh => h5 (by rw [hh]; decide)
    simp [ImageGenerationPlugin.execute_function, i1, i2, i3]
  · intro hcon
    have hlen := congrArg String.length hcon
    rw [String.length_append, String.length_append] at hlen
    rw [show ("Unknown function: ").length = 18 from rfl,
      show ("unknown operation: ").length = 19 from rfl] at hlen
    omega

/-- Witness for C10, exercising the cross-plugin case: generate_qr_code is
declared by the QR plugin but not by the other four, each of which answers it
with the Unknown function dict; the QR plugin itself is exercised at the
wholly undeclared nonexistent_op. -/
theorem C10_unknown_function_message_witness :
    TranslationPlugin.execute_function
        ⟨fun _ => [], fun _ => [], fun _ => [], fun _ => []⟩ "generate_qr_code" []
        = Except.ok (errorDict ("Unknown function: " ++ "generate_qr_code")) ∧
    EngineeringCalculatorsPlugin.execute_function
        ⟨fun _ => [], fun _ => [], fun _ => []⟩ "generate_qr_code" []
        = Except.ok (errorDict ("Unknown function: " ++ "generate_qr_code")) ∧
    DocumentAnalysisPlugin.execute_function
        ⟨fun _ => [], fun _ => [], fun _ => []⟩ "generate_qr_code" []
        = Except.ok (errorDict ("Unknown function: " ++ "generate_qr_code")) ∧
    ImageGenerationPlugin.execute_function
        ⟨fun _ => [], fun _ => [], fun _ => []⟩ "generate_qr_code" []
        = Except.ok (errorDict ("Unknown function: " ++ "generate_qr_code")) ∧
    QRCodeGeneratorPlugin.execute_function
        ⟨fun _ => [], fun _ => [], fun _ => [], fun _ => [], fun _ => []⟩ "nonexistent_op" []
        = Except.ok (errorDict ("Unknown function: " ++ "nonexistent_op")) ∧
    ("Unknown function: " ++ "generate_qr_code") ≠ ("unknown operation: " ++ "generate_qr_code") := by
  have h := C10_unknown_function_message "generate_qr_code"
    ⟨fun _ => [], fun _ => [], fun _ => [], fun _ => []⟩
    ⟨fun _ => [], fun _ => [], fun _ => [], fun _ => [], fun _ => []⟩
    ⟨fun _ => [], fun _ => [], fun _ => []⟩
    ⟨fun _ => [], fun _ => [], fun _ => []⟩
    ⟨fun _ => [], fun _ => [], fun _ => []⟩
  have h' := C10_unknown_function_message "nonexistent_op"
    ⟨fun _ => [], fun _ => [], fun _ => [], fun _ => []⟩
    ⟨fun _ => [], fun _ => [], fun _ => [], fun _ => [], fun _ => []⟩
    ⟨fun _ => [], fun _ => [], fun _ => []⟩
    ⟨fun _ => [], fun _ => [], fun _ => []⟩
    ⟨fun _ => [], fun _ => [], fun _ => []⟩
  exact ⟨h.1 (by decide), h.2.2.1 (by decide), h.2.2.2.1 (by decide),
    h.2.2.2.2.1 (by decide), h'.2.1 (by decide), h.2.2.2.2.2⟩
